import Mathlib

/-!
Verification of the `fs-change-detector` crate (`src/lib.rs`).

The embedding models the debounced file-watcher: the `notify` event and
error taxonomy, the internal message channel, the background callback
(filter + debounce + send) as a pure transition on its captured state,
and the `FileWatcher` facade (`new`, `has_changed`, `start_watch`).
Wall-clock instants are modelled as `Int` milliseconds and passed
explicitly to the callback; the fallible external calls
(`notify::recommended_watcher`, `Watcher::watch`) are parameters of
`start_watch`, each either succeeding or failing with a `notify` error.
-/

namespace FsChangeDetector

/-- `ChangeMessage` from the source: the unit payload sent on a change. -/
inductive ChangeMessage where
  | someKindOfChange
deriving DecidableEq, Repr

/-- `notify::event::DataChange`. -/
inductive DataChange where
  | any
  | size
  | content
  | other
deriving DecidableEq, Repr

/-- `notify::event::MetadataKind`. -/
inductive MetadataKind where
  | any
  | accessTime
  | writeTime
  | permissions
  | ownership
  | extended
  | other
deriving DecidableEq, Repr

/-- `notify::event::RenameMode`. -/
inductive RenameMode where
  | any
  | toPath
  | fromPath
  | both
  | other
deriving DecidableEq, Repr

/-- `notify::event::ModifyKind`. -/
inductive ModifyKind where
  | any
  | data (change : DataChange)
  | metadata (kind : MetadataKind)
  | nameChange (mode : RenameMode)
  | other
deriving DecidableEq, Repr

/-- `notify::event::AccessMode`. -/
inductive AccessMode where
  | any
  | execute
  | read
  | write
  | other
deriving DecidableEq, Repr

/-- `notify::event::AccessKind`. -/
inductive AccessKind where
  | any
  | read
  | opened (mode : AccessMode)
  | closed (mode : AccessMode)
  | other
deriving DecidableEq, Repr

/-- `notify::event::CreateKind`. -/
inductive CreateKind where
  | any
  | file
  | folder
  | other
deriving DecidableEq, Repr

/-- `notify::event::RemoveKind`. -/
inductive RemoveKind where
  | any
  | file
  | folder
  | other
deriving DecidableEq, Repr

/-- `notify::EventKind`: the raw filesystem event classification. -/
inductive EventKind where
  | any
  | access (kind : AccessKind)
  | create (kind : CreateKind)
  | modify (kind : ModifyKind)
  | remove (kind : RemoveKind)
  | other
deriving DecidableEq, Repr

/-- `notify::Event`: a raw event is a kind plus affected paths (the
callback only ever inspects `kind`). -/
structure Event where
  kind : EventKind
  paths : List String
deriving DecidableEq, Repr

/-- `notify::Config` (only carried through into error payloads). -/
structure Config where
  pollIntervalMillis : Option Nat
  compareContents : Bool
deriving DecidableEq, Repr

/-- `notify::ErrorKind`; the `Io` payload is modelled by its message
string, matching the source's `io_err.to_string()`. -/
inductive ErrorKind where
  | generic (msg : String)
  | ioErr (msg : String)
  | pathNotFound
  | watchNotFound
  | invalidConfig (config : Config)
  | maxFilesWatch
deriving DecidableEq, Repr

/-- `notify::Error`: an error kind plus associated paths. -/
structure NotifyError where
  kind : ErrorKind
  paths : List String
deriving DecidableEq, Repr

/-- `FileWatcherError` from the source, variant for variant;
`PathBuf` payloads are path strings. -/
inductive FileWatcherError where
  | ioError (msg : String)
  | pathNotFound (path : String)
  | tooManyWatches
  | invalidWatcherConfig (config : Config)
  | watcherGenericError (msg : String)
  | internalChannelError (msg : String)
  | watchNotFound (path : String)
deriving DecidableEq, Repr

/-- `map_notify_error_to_file_watcher_error` from the source: the match
on `e.kind`. -/
def map_notify_error_to_file_watcher_error (e : NotifyError) (path : String) :
    FileWatcherError :=
  match e.kind with
  | ErrorKind.pathNotFound => FileWatcherError.pathNotFound path
  | ErrorKind.maxFilesWatch => FileWatcherError.tooManyWatches
  | ErrorKind.generic msg => FileWatcherError.watcherGenericError msg
  | ErrorKind.invalidConfig config => FileWatcherError.invalidWatcherConfig config
  | ErrorKind.watchNotFound => FileWatcherError.watchNotFound path
  | ErrorKind.ioErr msg => FileWatcherError.ioError msg

/-- Receive failure of the `message_channel` receiver: the queue is
empty, or the sending side is gone and nothing is buffered. -/
inductive RecvError where
  | empty
  | disconnected
deriving DecidableEq, Repr

/-- Send failure of the `message_channel` sender: the receiver was
dropped. -/
inductive SendError where
  | disconnected
deriving DecidableEq, Repr

/-- The `message_channel` channel (spec section 1 treats it as an
external non-blocking queue): buffered messages plus liveness of each
endpoint. -/
structure Channel where
  queue : List ChangeMessage
  senderAlive : Bool
  receiverAlive : Bool
deriving DecidableEq, Repr

/-- `Channel::create()`: fresh empty queue, both endpoints alive. -/
def Channel.create : Channel :=
  { queue := [], senderAlive := true, receiverAlive := true }

/-- `sender.send(m)`: enqueue, or fail if the receiver was dropped. -/
def Channel.send (ch : Channel) (m : ChangeMessage) : Except SendError Channel :=
  if ch.receiverAlive then Except.ok { ch with queue := ch.queue ++ [m] }
  else Except.error SendError.disconnected

/-- `receiver.recv()`: non-blocking receive of the oldest buffered
message; fails when the queue is empty (disconnected when the sender is
also gone). -/
def Channel.recv (ch : Channel) : Except RecvError (ChangeMessage × Channel) :=
  match ch.queue with
  | [] => Except.error (if ch.senderAlive then RecvError.empty else RecvError.disconnected)
  | m :: rest => Except.ok (m, { ch with queue := rest })

/-- `debounce_duration = Duration::from_millis(100)`. -/
def debounceDurationMillis : Int := 100

/-- `now.duration_since(earlier)` on monotonic instants, saturating at
zero as `Instant::duration_since` does. -/
def durationSince (now earlier : Int) : Int := max (now - earlier) 0

/-- The event filter from the callback: `matches!(event.kind,
EventKind::Modify(ModifyKind::Data(_)) | EventKind::Modify(ModifyKind::Any))`. -/
def qualifies : EventKind → Bool
  | EventKind.modify (ModifyKind.data _) => true
  | EventKind.modify ModifyKind.any => true
  | _ => false

/-- The state captured by the background callback closure: the mutable
`last_event` instant and the sender side of the channel. -/
structure CallbackState where
  lastEvent : Int
  channel : Channel
deriving DecidableEq, Repr

/-- One invocation of the background callback on a raw `NotifyResult`,
at instant `now` (the closure body in `start_watch`): qualifying events
inside the debounce window are dropped; a qualifying event past the
window sends one message — a send error is logged and swallowed — and
sets `last_event := now`; all other events and delivery errors are
logged or ignored, leaving the state unchanged. -/
def processResult (st : CallbackState) (now : Int)
    (res : Except NotifyError Event) : CallbackState :=
  match res with
  | Except.ok event =>
    if qualifies event.kind then
      if durationSince now st.lastEvent ≥ debounceDurationMillis then
        let channel' :=
          match st.channel.send ChangeMessage.someKindOfChange with
          | Except.ok ch => ch
          | Except.error _ => st.channel
        { lastEvent := now, channel := channel' }
      else st
    else st
  | Except.error _ => st

/-- A raw event delivery paired with the instant the callback runs. -/
abbrev TimedResult := Int × Except NotifyError Event

/-- The callback applied to a sequence of deliveries in order. -/
def processEvents (st : CallbackState) : List TimedResult → CallbackState
  | [] => st
  | (t, r) :: rest => processEvents (processResult st t r) rest

/-- The watch handle returned by `start_watch`; it owns the callback
closure, so the closure's `last_event` lives here, plus the watched
path. -/
structure Watcher where
  lastEvent : Int
  watchPath : String
deriving DecidableEq, Repr

/-- `start_watch` from the source. `startNow` is `Instant::now()` at the
call; `last_event` is initialised to `Instant::now() - 1s`
(`checked_sub(Duration::from_secs(1)).unwrap()`). The two fallible
external calls — watcher creation (`notify::recommended_watcher`) and
watch registration (`watcher.watch`) — are given as their outcomes; a
failure of either is mapped through
`map_notify_error_to_file_watcher_error` and returned. -/
def start_watch (watch_path : String) (startNow : Int)
    (initResult : Except NotifyError Unit)
    (watchResult : Except NotifyError Unit) :
    Except FileWatcherError (Watcher × Channel) :=
  let channel := Channel.create
  let last_event := startNow - 1000
  match initResult with
  | Except.error e =>
      Except.error (map_notify_error_to_file_watcher_error e watch_path)
  | Except.ok _ =>
    match watchResult with
    | Except.error e =>
        Except.error (map_notify_error_to_file_watcher_error e watch_path)
    | Except.ok _ =>
        Except.ok ({ lastEvent := last_event, watchPath := watch_path }, channel)

/-- `FileWatcher` from the source: the receiver and the live watch
handle. -/
structure FileWatcher where
  receiver : Channel
  watcher : Watcher
deriving DecidableEq, Repr

/-- The `while let Ok(_) = receiver.recv()` loop shared by
`FileWatcher::new` and `has_changed`: repeatedly receive until the
channel yields an error, tracking whether anything was received, and
return the flag with the channel as the loop leaves it. -/
def drainRecv (ch : Channel) (result : Bool) : Bool × Channel :=
  match h : ch.recv with
  | Except.error _ => (result, ch)
  | Except.ok (_, ch') => drainRecv ch' true
termination_by ch.queue.length
decreasing_by
  simp only [Channel.recv] at h
  cases hq : ch.queue with
  | nil => rw [hq] at h; exact absurd h (by simp)
  | cons a rest =>
    rw [hq] at h
    simp only [Except.ok.injEq, Prod.mk.injEq] at h
    rw [← h.2]
    simp [hq]

/-- `FileWatcher::new`: run `start_watch`, then blockingly drain any
signals already delivered (`while let Ok(_found) = receiver.recv() {}`).
`startupEvents` are the raw deliveries the background callback processes
between watch registration and the drain loop. -/
def FileWatcher.new (watch_path : String) (startNow : Int)
    (initResult : Except NotifyError Unit)
    (watchResult : Except NotifyError Unit)
    (startupEvents : List TimedResult) :
    Except FileWatcherError FileWatcher :=
  match start_watch watch_path startNow initResult watchResult with
  | Except.error e => Except.error e
  | Except.ok (watcher, receiver) =>
    let st := processEvents { lastEvent := watcher.lastEvent, channel := receiver }
      startupEvents
    let drained := (drainRecv st.channel false).2
    Except.ok
      { receiver := drained
        watcher := { watcher with lastEvent := st.lastEvent } }

/-- `FileWatcher::has_changed`: drain everything queued, report whether
at least one message was received. -/
def FileWatcher.has_changed (w : FileWatcher) : Bool × FileWatcher :=
  let r := drainRecv w.receiver false
  (r.1, { w with receiver := r.2 })

/-- Unfolding of the drain loop on an empty queue: the first `recv`
fails (empty or disconnected) and the loop stops. -/
theorem drainRecv_nil (sa ra : Bool) (r : Bool) :
    drainRecv { queue := [], senderAlive := sa, receiverAlive := ra } r
      = (r, { queue := [], senderAlive := sa, receiverAlive := ra }) := by
  rw [drainRecv]
  simp [Channel.recv]

/-- Unfolding of the drain loop on a nonempty queue: one message is
received and the loop continues with the flag set. -/
theorem drainRecv_cons (m : ChangeMessage) (rest : List ChangeMessage) (sa ra : Bool)
    (r : Bool) :
    drainRecv { queue := m :: rest, senderAlive := sa, receiverAlive := ra } r
      = drainRecv { queue := rest, senderAlive := sa, receiverAlive := ra } true := by
  rw [drainRecv]
  simp [Channel.recv]

/-- The drain loop empties the queue and reports whether it received
anything (or the flag was already set). -/
theorem drainRecv_eq (ch : Channel) (r : Bool) :
    drainRecv ch r = (r || !ch.queue.isEmpty, { ch with queue := [] }) := by
  obtain ⟨q, sa, ra⟩ := ch
  induction q generalizing r with
  | nil => simp [drainRecv_nil]
  | cons m rest ih => simp [drainRecv_cons, ih]

/-- Claim C1: in the background callback, a qualifying raw event is
forwarded if and only if at least the 100 ms debounce window has elapsed
since the last forwarded event; forwarding appends exactly one message
to the channel queue and sets the last-forwarded instant to the current
time, while a within-window qualifying event leaves the callback state
(timestamp included) unchanged. -/
theorem claim_C1_debounce_gate (st : CallbackState) (now : Int) (ev : Event)
    (hq : qualifies ev.kind = true)
    (halive : st.channel.receiverAlive = true) :
    (durationSince now st.lastEvent ≥ debounceDurationMillis →
      (processResult st now (Except.ok ev)).channel.queue
          = st.channel.queue ++ [ChangeMessage.someKindOfChange]
        ∧ (processResult st now (Except.ok ev)).lastEvent = now)
    ∧ (durationSince now st.lastEvent < debounceDurationMillis →
        processResult st now (Except.ok ev) = st) := by
  constructor
  · intro hge
    simp [processResult, hq, hge, Channel.send, halive]
  · intro hlt
    simp [processResult, hq, not_le.mpr hlt]

/-- Witness for C1: a qualifying content-modification event 150 ms
after the last forwarded one is forwarded as exactly one message. -/
theorem claim_C1_debounce_gate_witness :
    (processResult { lastEvent := 0, channel := Channel.create } 150
        (Except.ok { kind := EventKind.modify (ModifyKind.data DataChange.content),
                     paths := ["x.txt"] })).channel.queue
      = Channel.create.queue ++ [ChangeMessage.someKindOfChange] :=
  ((claim_C1_debounce_gate { lastEvent := 0, channel := Channel.create } 150
      { kind := EventKind.modify (ModifyKind.data DataChange.content), paths := ["x.txt"] }
      (by decide) (by decide)).1 (by decide)).1

/-- Qualifying deliveries strictly within the debounce window of the
last forwarded instant `t0` are all rejected and leave the callback
state unchanged. -/
theorem processEvents_within_window (t0 : Int) (rest : List (Int × Event)) :
    ∀ st : CallbackState, st.lastEvent = t0 →
      (∀ p ∈ rest, p.1 - t0 < debounceDurationMillis) →
      processEvents st (rest.map fun p => (p.1, Except.ok p.2)) = st := by
  induction rest with
  | nil => intro st _ _; rfl
  | cons p ps ih =>
    intro st hlast hin
    have hdur : durationSince p.1 st.lastEvent < debounceDurationMillis := by
      rw [hlast]
      exact max_lt (hin p (by simp)) (by norm_num [debounceDurationMillis])
    have hstep : processResult st p.1 (Except.ok p.2) = st := by
      simp [processResult, not_le.mpr hdur]
    simp only [List.map_cons, processEvents, hstep]
    exact ih st hlast fun q hqmem => hin q (by simp [hqmem])

/-- Claim C2: a burst of K ≥ 2 qualifying events, all delivered strictly
within one 100 ms debounce window of the first, enqueues exactly one
signal (the debounce window being open when the burst starts). -/
theorem claim_C2_burst_collapses (st : CallbackState) (t0 : Int) (e0 : Event)
    (rest : List (Int × Event))
    (hK : rest ≠ [])
    (hq0 : qualifies e0.kind = true)
    (hrest : ∀ p ∈ rest, qualifies p.2.kind = true ∧ p.1 - t0 < debounceDurationMillis)
    (hopen : durationSince t0 st.lastEvent ≥ debounceDurationMillis)
    (halive : st.channel.receiverAlive = true) :
    (processEvents st
        ((t0, Except.ok e0) :: rest.map fun p => (p.1, Except.ok p.2))).channel.queue
      = st.channel.queue ++ [ChangeMessage.someKindOfChange] := by
  have h1 : processResult st t0 (Except.ok e0)
      = { lastEvent := t0,
          channel := { st.channel with
            queue := st.channel.queue ++ [ChangeMessage.someKindOfChange] } } := by
    simp [processResult, hq0, hopen, Channel.send, halive]
  have h2 := processEvents_within_window t0 rest
    { lastEvent := t0,
      channel := { st.channel with
        queue := st.channel.queue ++ [ChangeMessage.someKindOfChange] } }
    rfl (fun p hp => (hrest p hp).2)
  simp only [processEvents, h1, h2]

/-- Witness for C2: three qualifying events at 1000, 1050 and 1090 ms,
starting from an open window, enqueue exactly one signal. -/
theorem claim_C2_burst_collapses_witness :
    (processEvents { lastEvent := 0, channel := Channel.create }
        ((1000, Except.ok { kind := EventKind.modify (ModifyKind.data DataChange.any),
                            paths := ["x.txt"] })
          :: ([((1050 : Int), ({ kind := EventKind.modify ModifyKind.any,
                                 paths := ["x.txt"] } : Event)),
               ((1090 : Int), ({ kind := EventKind.modify (ModifyKind.data DataChange.content),
                                 paths := ["x.txt"] } : Event))].map
              fun p => (p.1, Except.ok p.2)))).channel.queue
      = Channel.create.queue ++ [ChangeMessage.someKindOfChange] :=
  claim_C2_burst_collapses { lastEvent := 0, channel := Channel.create } 1000
    { kind := EventKind.modify (ModifyKind.data DataChange.any), paths := ["x.txt"] }
    [((1050 : Int), ({ kind := EventKind.modify ModifyKind.any, paths := ["x.txt"] } : Event)),
     ((1090 : Int), ({ kind := EventKind.modify (ModifyKind.data DataChange.content),
                       paths := ["x.txt"] } : Event))]
    (by simp) (by decide) (by decide) (by decide) (by decide)

/-- Claim C3: `has_changed` drains every queued signal in one call and
returns whether at least one was drained; the result is a plain boolean
for every channel state, so a closed or disconnected channel behaves
exactly like an empty queue and no error is surfaced. -/
theorem claim_C3_has_changed_drains (w : FileWatcher) :
    (w.has_changed).1 = !w.receiver.queue.isEmpty
      ∧ (w.has_changed).2.receiver.queue = [] := by
  simp [FileWatcher.has_changed, drainRecv_eq]

/-- Claim C4: signals are consumed, not peeked: a second `has_changed`
immediately after a first one always returns `false`, and the first
returns `true` whenever signals were pending. -/
theorem claim_C4_consumed_not_peeked (w : FileWatcher) :
    ((w.has_changed).2.has_changed).1 = false
      ∧ (w.receiver.queue ≠ [] → (w.has_changed).1 = true) := by
  constructor
  · simp [FileWatcher.has_changed, drainRecv_eq]
  · intro hne
    simp [FileWatcher.has_changed, drainRecv_eq, hne]

/-- Witness for C4: with one pending signal, `has_changed` returns
`true`, then `false` on the immediate second call. -/
theorem claim_C4_consumed_not_peeked_witness :
    (({ receiver := { queue := [ChangeMessage.someKindOfChange],
                      senderAlive := true, receiverAlive := true },
        watcher := { lastEvent := 0, watchPath := "w" } } : FileWatcher).has_changed).1
        = true
    ∧ ((({ receiver := { queue := [ChangeMessage.someKindOfChange],
                         senderAlive := true, receiverAlive := true },
           watcher := { lastEvent := 0, watchPath := "w" } } : FileWatcher).has_changed).2.has_changed).1
        = false :=
  ⟨(claim_C4_consumed_not_peeked
      { receiver := { queue := [ChangeMessage.someKindOfChange],
                      senderAlive := true, receiverAlive := true },
        watcher := { lastEvent := 0, watchPath := "w" } }).2 (by simp),
   (claim_C4_consumed_not_peeked
      { receiver := { queue := [ChangeMessage.someKindOfChange],
                      senderAlive := true, receiverAlive := true },
        watcher := { lastEvent := 0, watchPath := "w" } }).1⟩

/-- Claim C5: the event filter admits exactly the content-modification
(`Modify(Data(_))`) and generic-modification (`Modify(Any)`) kinds as
candidates, and any sequence of events of other kinds (metadata,
access, create, remove, ...) leaves the callback state — in particular
the queue — unchanged, so no signal is ever enqueued for them. -/
theorem claim_C5_filter_correct (st : CallbackState) (evs : List (Int × Event))
    (h : ∀ p ∈ evs, qualifies p.2.kind = false) :
    (∀ k : EventKind, qualifies k = true ↔
        (∃ d, k = EventKind.modify (ModifyKind.data d))
          ∨ k = EventKind.modify ModifyKind.any)
    ∧ processEvents st (evs.map fun p => (p.1, Except.ok p.2)) = st := by
  constructor
  · intro k
    constructor
    · intro hk
      cases k with
      | modify mk =>
        cases mk with
        | data d => exact Or.inl ⟨d, rfl⟩
        | any => exact Or.inr rfl
        | metadata m => exact absurd hk (by simp [qualifies])
        | nameChange m => exact absurd hk (by simp [qualifies])
        | other => exact absurd hk (by simp [qualifies])
      | any => exact absurd hk (by simp [qualifies])
      | access a => exact absurd hk (by simp [qualifies])
      | create c => exact absurd hk (by simp [qualifies])
      | remove r => exact absurd hk (by simp [qualifies])
      | other => exact absurd hk (by simp [qualifies])
    · rintro (⟨d, rfl⟩ | rfl) <;> rfl
  · induction evs with
    | nil => rfl
    | cons p ps ih =>
      have hstep : processResult st p.1 (Except.ok p.2) = st := by
        simp [processResult, h p (by simp)]
      simp only [List.map_cons, processEvents, hstep]
      exact ih fun q hqmem => h q (by simp [hqmem])

/-- Witness for C5: a metadata change, an access, a create, a remove
and a fully generic event leave the state untouched. -/
theorem claim_C5_filter_correct_witness :
    processEvents { lastEvent := 0, channel := Channel.create }
        (([((0 : Int), ({ kind := EventKind.modify (ModifyKind.metadata MetadataKind.any),
                          paths := ["x.txt"] } : Event)),
           ((10 : Int), ({ kind := EventKind.access AccessKind.read, paths := [] } : Event)),
           ((20 : Int), ({ kind := EventKind.create CreateKind.file, paths := [] } : Event)),
           ((30 : Int), ({ kind := EventKind.remove RemoveKind.any, paths := [] } : Event)),
           ((40 : Int), ({ kind := EventKind.any, paths := [] } : Event))].map
          fun p => (p.1, Except.ok p.2)))
      = { lastEvent := 0, channel := Channel.create } :=
  (claim_C5_filter_correct { lastEvent := 0, channel := Channel.create }
    [((0 : Int), ({ kind := EventKind.modify (ModifyKind.metadata MetadataKind.any),
                    paths := ["x.txt"] } : Event)),
     ((10 : Int), ({ kind := EventKind.access AccessKind.read, paths := [] } : Event)),
     ((20 : Int), ({ kind := EventKind.create CreateKind.file, paths := [] } : Event)),
     ((30 : Int), ({ kind := EventKind.remove RemoveKind.any, paths := [] } : Event)),
     ((40 : Int), ({ kind := EventKind.any, paths := [] } : Event))]
    (by decide)).2

/-- Claim C6: every watch-init or watch-registration failure is mapped
through `map_notify_error_to_file_watcher_error` to its dedicated
variant — `PathNotFound` to `PathNotFound`, `MaxFilesWatch` to
`TooManyWatches`, `Generic` to `WatcherGenericError`, `InvalidConfig`
to `InvalidWatcherConfig`, `Io` to `IoError` — and `start_watch` /
`FileWatcher.new` return that error without creating a session. -/
theorem claim_C6_construction_error_mapping (p msg : String) (c : Config)
    (paths : List String) (startNow : Int) (e : NotifyError)
    (watchResult : Except NotifyError Unit) (startupEvents : List TimedResult) :
    map_notify_error_to_file_watcher_error
        { kind := ErrorKind.pathNotFound, paths := paths } p
        = FileWatcherError.pathNotFound p
    ∧ map_notify_error_to_file_watcher_error
        { kind := ErrorKind.maxFilesWatch, paths := paths } p
        = FileWatcherError.tooManyWatches
    ∧ map_notify_error_to_file_watcher_error
        { kind := ErrorKind.generic msg, paths := paths } p
        = FileWatcherError.watcherGenericError msg
    ∧ map_notify_error_to_file_watcher_error
        { kind := ErrorKind.invalidConfig c, paths := paths } p
        = FileWatcherError.invalidWatcherConfig c
    ∧ map_notify_error_to_file_watcher_error
        { kind := ErrorKind.ioErr msg, paths := paths } p
        = FileWatcherError.ioError msg
    ∧ start_watch p startNow (Except.error e) watchResult
        = Except.error (map_notify_error_to_file_watcher_error e p)
    ∧ start_watch p startNow (Except.ok ()) (Except.error e)
        = Except.error (map_notify_error_to_file_watcher_error e p)
    ∧ FileWatcher.new p startNow (Except.error e) watchResult startupEvents
        = Except.error (map_notify_error_to_file_watcher_error e p) :=
  ⟨rfl, rfl, rfl, rfl, rfl, rfl, rfl, rfl⟩

/-- Claim C7: `FileWatcher::new` drains every signal already queued
before returning, so a `has_changed` call immediately after a
successful construction returns `false`. -/
theorem claim_C7_drain_on_init (p : String) (startNow : Int)
    (initResult watchResult : Except NotifyError Unit)
    (startupEvents : List TimedResult) (w : FileWatcher)
    (h : FileWatcher.new p startNow initResult watchResult startupEvents
        = Except.ok w) :
    w.receiver.queue = [] ∧ (w.has_changed).1 = false := by
  cases initResult with
  | error e => simp [FileWatcher.new, start_watch] at h
  | ok u =>
    cases watchResult with
    | error e => simp [FileWatcher.new, start_watch] at h
    | ok v =>
      simp only [FileWatcher.new, start_watch, drainRecv_eq, Except.ok.injEq] at h
      rw [← h]
      simp [FileWatcher.has_changed, drainRecv_eq]

/-- Witness for C7: constructing with a qualifying startup event already
delivered yields a watcher with an empty queue and a `false` first
poll. -/
theorem claim_C7_drain_on_init_witness :
    (({ receiver := { queue := [], senderAlive := true, receiverAlive := true },
        watcher := { lastEvent := 0, watchPath := "w" } } : FileWatcher).receiver.queue = [])
    ∧ ((({ receiver := { queue := [], senderAlive := true, receiverAlive := true },
           watcher := { lastEvent := 0, watchPath := "w" } } : FileWatcher).has_changed).1
        = false) :=
  claim_C7_drain_on_init "w" 0 (Except.ok ()) (Except.ok ())
    [((0 : Int), Except.ok ({ kind := EventKind.modify ModifyKind.any,
                              paths := ["x.txt"] } : Event))]
    { receiver := { queue := [], senderAlive := true, receiverAlive := true },
      watcher := { lastEvent := 0, watchPath := "w" } }
    (by simp [FileWatcher.new, start_watch, processEvents, processResult, qualifies,
      durationSince, debounceDurationMillis, Channel.send, Channel.create, drainRecv_eq])

/-- Claim C8: when the receiver has been dropped, the send fails with a
disconnect error, which the callback swallows: it still returns
normally with the queue unchanged and the timestamp updated, subsequent
deliveries are processed as usual, and an error delivery is likewise
only logged and ignored. -/
theorem claim_C8_send_failure_swallowed (st : CallbackState) (now : Int) (ev : Event)
    (hdead : st.channel.receiverAlive = false)
    (hq : qualifies ev.kind = true)
    (hopen : durationSince now st.lastEvent ≥ debounceDurationMillis) :
    st.channel.send ChangeMessage.someKindOfChange
        = Except.error SendError.disconnected
    ∧ (processResult st now (Except.ok ev)).channel = st.channel
    ∧ (processResult st now (Except.ok ev)).lastEvent = now
    ∧ (∀ rest : List TimedResult,
        processEvents st ((now, Except.ok ev) :: rest)
          = processEvents { lastEvent := now, channel := st.channel } rest)
    ∧ ∀ e : NotifyError, processResult st now (Except.error e) = st := by
  have hsend : st.channel.send ChangeMessage.someKindOfChange
      = Except.error SendError.disconnected := by
    simp [Channel.send, hdead]
  have hstep : processResult st now (Except.ok ev)
      = { lastEvent := now, channel := st.channel } := by
    simp [processResult, hq, hopen, hsend]
  refine ⟨hsend, by simp [hstep], by simp [hstep], ?_, fun e => rfl⟩
  intro rest
  simp only [processEvents, hstep]

/-- Witness for C8: a qualifying event on a channel whose receiver is
gone updates the timestamp but enqueues nothing. -/
theorem claim_C8_send_failure_swallowed_witness :
    (processResult
        { lastEvent := 0,
          channel := { queue := [], senderAlive := true, receiverAlive := false } } 500
        (Except.ok { kind := EventKind.modify ModifyKind.any, paths := [] })).channel
      = { queue := [], senderAlive := true, receiverAlive := false } :=
  (claim_C8_send_failure_swallowed
    { lastEvent := 0,
      channel := { queue := [], senderAlive := true, receiverAlive := false } } 500
    { kind := EventKind.modify ModifyKind.any, paths := [] }
    (by decide) (by decide) (by decide)).2.1

/-- Claim C9: the reserved variants are unreachable from construction:
`InternalChannelError` is produced by no input of the error mapping at
all, and as long as watcher creation and watch registration only fail
with their own error kinds (never `WatchNotFound`, which `notify`
reserves for unwatching), no construction error is
`InternalChannelError` or `WatchNotFound`. -/
theorem claim_C9_reserved_variants_unreachable (p : String) (startNow : Int)
    (initResult watchResult : Except NotifyError Unit)
    (startupEvents : List TimedResult)
    (hinit : ∀ e, initResult = Except.error e → e.kind ≠ ErrorKind.watchNotFound)
    (hwatch : ∀ e, watchResult = Except.error e → e.kind ≠ ErrorKind.watchNotFound)
    (err : FileWatcherError)
    (hrun : FileWatcher.new p startNow initResult watchResult startupEvents
        = Except.error err) :
    (∀ s, err ≠ FileWatcherError.internalChannelError s)
    ∧ (∀ q, err ≠ FileWatcherError.watchNotFound q)
    ∧ ∀ (e : NotifyError) (s : String),
        map_notify_error_to_file_watcher_error e p
          ≠ FileWatcherError.internalChannelError s := by
  have h3 : ∀ (e : NotifyError) (s : String),
      map_notify_error_to_file_watcher_error e p
        ≠ FileWatcherError.internalChannelError s := by
    intro e s
    unfold map_notify_error_to_file_watcher_error
    cases e.kind <;> simp
  have hmap : ∀ e : NotifyError, e.kind ≠ ErrorKind.watchNotFound →
      ∀ q, map_notify_error_to_file_watcher_error e p ≠ FileWatcherError.watchNotFound q := by
    intro e hk q
    unfold map_notify_error_to_file_watcher_error
    cases hke : e.kind <;> simp_all
  cases initResult with
  | error e =>
    have herr : map_notify_error_to_file_watcher_error e p = err := by
      simpa [FileWatcher.new, start_watch] using hrun
    exact ⟨fun s => herr ▸ h3 e s, fun q => herr ▸ hmap e (hinit e rfl) q, h3⟩
  | ok u =>
    cases watchResult with
    | error e =>
      have herr : map_notify_error_to_file_watcher_error e p = err := by
        simpa [FileWatcher.new, start_watch] using hrun
      exact ⟨fun s => herr ▸ h3 e s, fun q => herr ▸ hmap e (hwatch e rfl) q, h3⟩
    | ok v => simp [FileWatcher.new, start_watch] at hrun

/-- Witness for C9: a failed registration with kind `PathNotFound`
yields the `PathNotFound` error, which is neither reserved variant. -/
theorem claim_C9_reserved_variants_unreachable_witness :
    (∀ s, FileWatcherError.pathNotFound "w" ≠ FileWatcherError.internalChannelError s)
    ∧ (∀ q, FileWatcherError.pathNotFound "w" ≠ FileWatcherError.watchNotFound q)
    ∧ ∀ (e : NotifyError) (s : String),
        map_notify_error_to_file_watcher_error e "w"
          ≠ FileWatcherError.internalChannelError s :=
  claim_C9_reserved_variants_unreachable "w" 0
    (Except.error { kind := ErrorKind.pathNotFound, paths := [] }) (Except.ok ()) []
    (by intro e he; injection he with h; rw [← h]; decide)
    (by intro e he; simp at he)
    (FileWatcherError.pathNotFound "w") rfl

/-- Claim C10: `start_watch` initialises the debounce timestamp to one
second before the construction instant, so for any event at or after
construction the elapsed duration is at least 1000 ms ≥ 100 ms and the
first qualifying event is always forwarded, however soon it arrives. -/
theorem claim_C10_first_event_always_forwarded (p : String) (startNow : Int)
    (initResult watchResult : Except NotifyError Unit) (w : Watcher) (ch : Channel)
    (h : start_watch p startNow initResult watchResult = Except.ok (w, ch))
    (t : Int) (ht : startNow ≤ t) (ev : Event) (hq : qualifies ev.kind = true) :
    w.lastEvent = startNow - 1000
    ∧ durationSince t w.lastEvent ≥ debounceDurationMillis
    ∧ (processResult { lastEvent := w.lastEvent, channel := ch } t
        (Except.ok ev)).channel.queue = [ChangeMessage.someKindOfChange]
    ∧ (processResult { lastEvent := w.lastEvent, channel := ch } t
        (Except.ok ev)).lastEvent = t := by
  cases initResult with
  | error e => simp [start_watch] at h
  | ok u =>
    cases watchResult with
    | error e => simp [start_watch] at h
    | ok v =>
      simp only [start_watch, Channel.create, Except.ok.injEq, Prod.mk.injEq] at h
      obtain ⟨hw, hch⟩ := h
      have hlast : w.lastEvent = startNow - 1000 := by rw [← hw]
      have hdur : durationSince t w.lastEvent ≥ debounceDurationMillis := by
        rw [hlast, durationSince, debounceDurationMillis]
        exact le_trans (by linarith) (le_max_left _ _)
      refine ⟨hlast, hdur, ?_, ?_⟩
      · simp [processResult, hq, hdur, Channel.send, ← hch]
      · simp [processResult, hq, hdur]

/-- Witness for C10: an event arriving at the construction instant
itself is forwarded. -/
theorem claim_C10_first_event_always_forwarded_witness :
    (({ lastEvent := 4000, watchPath := "w" } : Watcher).lastEvent = 5000 - 1000)
    ∧ durationSince 5000 ({ lastEvent := 4000, watchPath := "w" } : Watcher).lastEvent
        ≥ debounceDurationMillis
    ∧ (processResult
        { lastEvent := ({ lastEvent := 4000, watchPath := "w" } : Watcher).lastEvent,
          channel := { queue := [], senderAlive := true, receiverAlive := true } } 5000
        (Except.ok { kind := EventKind.modify (ModifyKind.data DataChange.content),
                     paths := ["x.txt"] })).channel.queue
        = [ChangeMessage.someKindOfChange]
    ∧ (processResult
        { lastEvent := ({ lastEvent := 4000, watchPath := "w" } : Watcher).lastEvent,
          channel := { queue := [], senderAlive := true, receiverAlive := true } } 5000
        (Except.ok { kind := EventKind.modify (ModifyKind.data DataChange.content),
                     paths := ["x.txt"] })).lastEvent = 5000 :=
  claim_C10_first_event_always_forwarded "w" 5000 (Except.ok ()) (Except.ok ())
    { lastEvent := 4000, watchPath := "w" }
    { queue := [], senderAlive := true, receiverAlive := true }
    rfl 5000 (by decide)
    { kind := EventKind.modify (ModifyKind.data DataChange.content), paths := ["x.txt"] }
    (by decide)

end FsChangeDetector
